import Mathlib

/-!
Shallow embedding of `src/ate/tdr.py` (module `tdr`, "Test Data Record").

The module wraps a CSV of ATE test records.  A `TestDataRecord` is one row:
its overall status is derived from the field "[RESULT] TEST P/F STATUS",
which is then dropped from the row.  Each remaining field yields a `Test`
whose specification (data type, nominal, units, limits) is resolved from a
spec lookup keyed by the canonical test name.  `meas` derives the measured
value and mutates `operator` as a side effect; `build_failstring` serializes
the failed tests of a record.

Rows are modelled as association lists from field name to raw string value;
numeric spec attributes are modelled as rationals; fallible Python code
(KeyError propagation) is modelled with `Except`.
-/

namespace Tdr

/-- Raw row of a record: field name to raw textual value, in column order. -/
abbrev Fields := List (String × String)

/-- Literal field name of the overall result, from `set_status` in the source. -/
def RESULT_FIELD : String := "[RESULT] TEST P/F STATUS"

/-- Label lookup on a row, as pandas `Series.__getitem__` on a present label;
`none` models the `KeyError` on an absent label. -/
def lookupField (fs : Fields) (k : String) : Option String :=
  (fs.find? (fun p => p.1 == k)).map Prod.snd

/-- Removal of a label from a row, as pandas `Series.drop` when the label is
present.  (`drop` on an absent label raises; callers model that case.) -/
def dropField (fs : Fields) (k : String) : Fields :=
  fs.filter (fun p => p.1 != k)

/-- Embedding of `TestDataRecord.set_status`.  The source reads the result
field inside `try`, and drops it in `finally`.  Python `try/finally` (with no
`except`) does not swallow: when the label is absent, the read raises
`KeyError`, the `finally` clause then runs `Series.drop` on the same absent
label which itself raises `KeyError`, and that exception propagates.  When the
label is present both steps succeed and `status := (value == "PASS")`. -/
def set_status (fs : Fields) : Except String (Bool × Fields) :=
  match lookupField fs RESULT_FIELD with
  | some v => .ok (v == "PASS", dropField fs RESULT_FIELD)
  | none => .error "KeyError"

/-- Specification attributes returned by the spec lookup (`Pcf.Section`),
as read through the `Test` properties `type`, `nominal`, `units`,
`low_limit`, `high_limit`. -/
structure Spec where
  data_type : String
  nominal : ℚ
  units : String
  low_limit : ℚ
  high_limit : ℚ
deriving DecidableEq, Repr

/-- External spec repository: canonical test name to spec attributes,
`none` modelling the lookup error on an unregistered name. -/
abbrev SpecLookup := String → Option Spec

/-- Characters of a list strictly before the first occurrence of the
separator sequence `sep`; the whole list when `sep` never occurs.  This is
the first segment produced by splitting on the literal separator. -/
def splitHead (sep : List Char) : List Char → List Char
  | [] => []
  | c :: rest => if sep.isPrefixOf (c :: rest) then [] else c :: splitHead sep rest

/-- Embedding of the `Test.name` property: if the raw field name contains a
literal `[`, split on the fixed pattern "space then `[`" (the regex `r' \['`
has no metacharacters beyond the escaped bracket, so `re.split` is literal
splitting) and keep the first segment; otherwise the raw name unchanged. -/
def canonicalName (raw : String) : String :=
  if raw.toList.contains '[' then { data := splitHead " [".toList raw.toList } else raw

/-- Substring test on lists of characters: `sub` occurs contiguously in the
second list.  Mirrors the Python `in` operator on strings. -/
def listContains (sub : List Char) : List Char → Bool
  | [] => sub.isEmpty
  | c :: rest => sub.isPrefixOf (c :: rest) || listContains sub rest

/-- Python `sub in s` for strings: case-sensitive contiguous substring. -/
def strContains (s sub : String) : Bool :=
  listContains sub.toList s.toList

/-- One test of a record, as built by `Test.__init__`: the raw field name,
the raw field value, the mutable `operator` slot (initially `None`), and the
resolved spec. -/
structure Test where
  _name : String
  data : String
  operator : Option String
  spec : Spec
deriving DecidableEq, Repr

/-- Embedding of `Test.__init__`: stores name and data, sets `operator` to
`None`, and resolves `self.spec = self.record.csv.test_spec[self.name]`;
an unregistered canonical name raises a lookup `KeyError`, not caught
anywhere in the class, so construction fails. -/
def Test.init (lookup : SpecLookup) (name data : String) : Except String Test :=
  match lookup (canonicalName name) with
  | some s => .ok { _name := name, data := data, operator := none, spec := s }
  | none => .error ("KeyError: " ++ canonicalName name)

/-- The `Test.name` property applied to a constructed test. -/
def Test.name (t : Test) : String :=
  canonicalName t._name

/-- Embedding of the `Test.status` property:
`True if 'PASS' in self.data else False`. -/
def Test.status (t : Test) : Bool :=
  if strContains t.data "PASS" then true else false

/-- Measured values produced by `meas`: the raw sibling text for the DBL
sibling branch, or a Python `int` for the binary-nominal and BOOLEAN
branches.  `Option MeasValue` with `none` models Python `None`. -/
inductive MeasValue where
  | str (s : String)
  | int (n : ℤ)
deriving DecidableEq, Repr

/-- Modelled from the spec: `TestDataRecord.__getitem__` is inherited from
`kemx.templates.Record`, which is not in the repository sources.  Per §4.3
it reads "a sibling field named `\x7bname\x7d [MEAS]` from the owning
Record's tests" and yields that sibling's raw value; an absent sibling is a
`KeyError` (here `none`). -/
def record_getitem_data (fs : Fields) (k : String) : Option String :=
  lookupField fs k

/-- Embedding of the `Test.meas` property, dispatched on the spec data type.
Returns the pair (measured value, operator after the read), with the
record's remaining fields supplied for the sibling lookup.  In the `DBL`
branch the source assigns `operator = '<>'` before the sibling lookup, so a
failed lookup with non-binary nominal returns `None` with operator left at
`'<>'`; a failed lookup with nominal exactly `1.0` or `0.0` overwrites
operator with `'=='` and returns `int(not nominal)`.  `BOOLEAN` yields
`int(status)` with `'=='`.  `STRING` and `CORRELATION DBL` set the operator
but fall through (Python returns `None`).  Any other type returns `None`
leaving operator untouched. -/
def Test.meas (t : Test) (recordFields : Fields) : Option MeasValue × Option String :=
  if t.spec.data_type = "DBL" then
    match record_getitem_data recordFields (t.name ++ " [MEAS]") with
    | some d => (some (.str d), some "<>")
    | none =>
      if t.spec.nominal = 1 ∨ t.spec.nominal = 0 then
        (some (.int (if t.spec.nominal = 0 then 1 else 0)), some "==")
      else
        (none, some "<>")
  else if t.spec.data_type = "BOOLEAN" then
    (some (.int (if t.status then 1 else 0)), some "==")
  else if t.spec.data_type = "STRING" then
    (none, some "==")
  else if t.spec.data_type = "CORRELATION DBL" then
    (none, some "<>")
  else
    (none, t.operator)

/-- Modelled from the spec: the `tests` property is inherited from
`kemx.templates.Record`, not in the repository sources.  Per §4.2 it yields
one `Test` per remaining field name of the row, in field order, constructed
through `Test.__init__` (so an unregistered name propagates its error). -/
def tests (lookup : SpecLookup) (fs : Fields) : Except String (List Test) :=
  fs.mapM (fun p => Test.init lookup p.1 p.2)

/-- Embedding of `TestDataRecord.__get_failed_tests`: the tests whose raw
field value, converted to text, contains the substring "FAIL". -/
def get_failed_tests (lookup : SpecLookup) (fs : Fields) : Except String (List Test) :=
  (tests lookup fs).map (fun l => l.filter (fun t => strContains t.data "FAIL"))

/-- Python `str()` of the value returned by `meas`. -/
def showMeas : Option MeasValue → String
  | none => "None"
  | some (.str s) => s
  | some (.int n) => toString n

/-- Python `str()` of the operator slot. -/
def showOp : Option String → String
  | none => "None"
  | some s => s

/-- The chunk appended per loop iteration of `build_failstring`: the format
string `|ftestres=0,...` filled, in order, with the test's name, measured
value, high limit, low limit, nominal, units, and operator, terminated by a
newline.  The format arguments are evaluated left to right, so `meas` runs
(and settles the operator) before `operator` is read. -/
def failLine (fs : Fields) (t : Test) : String :=
  "|ftestres=0," ++ t.name ++ "," ++ showMeas (Test.meas t fs).1 ++ ","
    ++ toString t.spec.high_limit ++ "," ++ toString t.spec.low_limit ++ ","
    ++ toString t.spec.nominal ++ "," ++ t.spec.units ++ ","
    ++ showOp (Test.meas t fs).2 ++ "\n"

/-- Embedding of `TestDataRecord.build_failstring`: starting from the empty
string, append one formatted line per failed test, in iteration order. -/
def build_failstring (lookup : SpecLookup) (fs : Fields) : Except String String :=
  (get_failed_tests lookup fs).map (fun l =>
    l.foldl (fun acc t => acc ++ failLine fs t) "")

/-- Concrete DBL spec for the `Voltage` test of the end-to-end scenario. -/
def voltSpec : Spec :=
  { data_type := "DBL", nominal := 5, units := "V", low_limit := 49/10, high_limit := 51/10 }

/-- Concrete spec lookup registering only the canonical name `Voltage`. -/
def exLookup : SpecLookup :=
  fun n => if n = "Voltage" then some voltSpec else none

end Tdr

namespace Tdr

/-- Prepending a string to a joined list joins the longer list. -/
theorem join_cons (a : String) (l : List String) :
    String.join (a :: l) = a ++ String.join l := by
  apply String.ext
  simp [String.join_eq, String.data_append]

/-- Folding string appends of mapped elements from an accumulator yields the
accumulator followed by the join of the mapped list. -/
theorem foldl_append_eq_join {α : Type} (f : α → String) :
    ∀ (l : List α) (acc : String),
      l.foldl (fun a t => a ++ f t) acc = acc ++ String.join (l.map f) := by
  intro l
  induction l with
  | nil =>
    intro acc
    simp [String.join, String.append_empty]
  | cons x xs ih =>
    intro acc
    rw [List.foldl_cons, ih, List.map_cons, join_cons, String.append_assoc]

/-- C2 (corrected), counterexample: on a concrete row without the field
"[RESULT] TEST P/F STATUS", constructing the record propagates a KeyError —
the status lookup fails and the unconditional drop in the `finally` clause
fails on the same absent label — so construction does raise, contrary to the
claim that the failure is swallowed and status resolves to a default. -/
theorem C2_counterexample : set_status [("Voltage", "4.8")] = .error "KeyError" := rfl

/-- C2 (corrected), amended claim: whenever the overall-result field is
absent from the raw row, `set_status` (run by the Record constructor)
propagates a KeyError instead of swallowing it; status never resolves to the
pre-lookup default. -/
theorem C2_set_status_missing (fs : Fields)
    (h : lookupField fs RESULT_FIELD = none) :
    set_status fs = .error "KeyError" := by
  unfold set_status
  rw [h]

/-- Witness for C2_set_status_missing at a concrete row lacking the field. -/
theorem C2_witness :
    lookupField [("Voltage", "FAIL")] RESULT_FIELD = none ∧
      set_status [("Voltage", "FAIL")] = .error "KeyError" :=
  ⟨rfl, C2_set_status_missing [("Voltage", "FAIL")] rfl⟩

/-- C3 (confirmed): for every row containing the overall-result field, the
constructed status is `value == "PASS"` — true iff the raw text equals
exactly "PASS", false for anything else — and the remaining fields are the
row with that field dropped. -/
theorem C3_status_iff_pass (fs : Fields) (v : String)
    (h : lookupField fs RESULT_FIELD = some v) :
    set_status fs = .ok (v == "PASS", dropField fs RESULT_FIELD) ∧
      ((v == "PASS") = true ↔ v = "PASS") := by
  constructor
  · unfold set_status
    rw [h]
  · exact beq_iff_eq

/-- Witness for C3_status_iff_pass on a row whose result text is
"PASS-SOMETHING", which yields status false. -/
theorem C3_witness :
    lookupField [("[RESULT] TEST P/F STATUS", "PASS-SOMETHING")] RESULT_FIELD
        = some "PASS-SOMETHING" ∧
      set_status [("[RESULT] TEST P/F STATUS", "PASS-SOMETHING")]
          = .ok (("PASS-SOMETHING" == "PASS"),
              dropField [("[RESULT] TEST P/F STATUS", "PASS-SOMETHING")] RESULT_FIELD) ∧
        (("PASS-SOMETHING" == "PASS") = true ↔ "PASS-SOMETHING" = "PASS") :=
  ⟨rfl, C3_status_iff_pass [("[RESULT] TEST P/F STATUS", "PASS-SOMETHING")] "PASS-SOMETHING" rfl⟩

end Tdr

namespace Tdr

/-- C4 (confirmed): whenever the failed tests of a record resolve, the
failure report is exactly the concatenation, in iteration order, of one line
per failed test — the literal tag `|ftestres=0,` then name, measured value,
high limit, low limit, nominal, units, operator, comma-separated in that
fixed order and terminated by a newline — and a record with zero failed
tests yields the empty string, not an error. -/
theorem C4_build_failstring_lines (lookup : SpecLookup) (fs : Fields) (l : List Test)
    (h : get_failed_tests lookup fs = .ok l) :
    build_failstring lookup fs = .ok (String.join (l.map (failLine fs))) ∧
      (l = [] → build_failstring lookup fs = .ok "") := by
  have hmain : build_failstring lookup fs = .ok (String.join (l.map (failLine fs))) := by
    unfold build_failstring
    rw [h]
    simp only [Except.map]
    rw [foldl_append_eq_join (failLine fs) l ""]
    apply congrArg
    apply String.ext
    simp [String.data_append]
  refine ⟨hmain, ?_⟩
  intro hnil
  rw [hmain, hnil]
  rfl

/-- Witness for C4_build_failstring_lines: the end-to-end scenario row with
fields `Voltage [MEAS] = 4.8` and `Voltage = FAIL` has exactly one failed
test and its report is one formatted line. -/
theorem C4_witness :
    get_failed_tests exLookup [("Voltage [MEAS]", "4.8"), ("Voltage", "FAIL")]
        = .ok [{ _name := "Voltage", data := "FAIL", operator := none, spec := voltSpec }] ∧
      build_failstring exLookup [("Voltage [MEAS]", "4.8"), ("Voltage", "FAIL")]
        = .ok (String.join
            ([{ _name := "Voltage", data := "FAIL", operator := none, spec := voltSpec }].map
              (failLine [("Voltage [MEAS]", "4.8"), ("Voltage", "FAIL")]))) :=
  ⟨by rfl,
   (C4_build_failstring_lines exLookup [("Voltage [MEAS]", "4.8"), ("Voltage", "FAIL")]
      [{ _name := "Voltage", data := "FAIL", operator := none, spec := voltSpec }] (by rfl)).1⟩

/-- C5 (confirmed): a raw field name without a literal bracket is its own
canonical name; a raw name with a bracketed suffix is cut at the first
occurrence of "space then bracket", so "Voltage [MEAS]" resolves to
"Voltage" (and a name with several suffixes still keeps only the first
segment). -/
theorem C5_canonical_name :
    (∀ raw : String, raw.toList.contains '[' = false → canonicalName raw = raw) ∧
      canonicalName "Voltage [MEAS]" = "Voltage" ∧
        canonicalName "A [X] [Y]" = "A" := by
  refine ⟨?_, by decide, by decide⟩
  intro raw h
  unfold canonicalName
  rw [h]
  rfl

/-- Witness for C5_canonical_name at the bracket-free raw name "Plain". -/
theorem C5_witness :
    ("Plain".toList.contains '[') = false ∧ canonicalName "Plain" = "Plain" :=
  ⟨by decide, C5_canonical_name.1 "Plain" (by decide)⟩

/-- C6 (confirmed): for a DBL-type test whose owning record still has a
sibling field named "name [MEAS]", reading `meas` returns that sibling's raw
value and sets the operator to the range symbol `<>`. -/
theorem C6_meas_dbl_sibling (t : Test) (fs : Fields) (d : String)
    (htype : t.spec.data_type = "DBL")
    (hsib : record_getitem_data fs (t.name ++ " [MEAS]") = some d) :
    Test.meas t fs = (some (.str d), some "<>") := by
  unfold Test.meas
  rw [htype, hsib]
  simp

/-- Witness for C6_meas_dbl_sibling at the end-to-end scenario test. -/
theorem C6_witness :
    voltSpec.data_type = "DBL" ∧
      record_getitem_data [("Voltage [MEAS]", "4.8"), ("Voltage", "FAIL")]
          (Test.name { _name := "Voltage", data := "FAIL", operator := none, spec := voltSpec }
            ++ " [MEAS]")
        = some "4.8" ∧
      Test.meas { _name := "Voltage", data := "FAIL", operator := none, spec := voltSpec }
          [("Voltage [MEAS]", "4.8"), ("Voltage", "FAIL")]
        = (some (.str "4.8"), some "<>") :=
  ⟨rfl, rfl,
   C6_meas_dbl_sibling { _name := "Voltage", data := "FAIL", operator := none, spec := voltSpec }
     [("Voltage [MEAS]", "4.8"), ("Voltage", "FAIL")] "4.8" rfl rfl⟩

end Tdr

namespace Tdr

/-- Concrete BOOLEAN spec used by the status examples. -/
def boolSpec : Spec :=
  { data_type := "BOOLEAN", nominal := 1, units := "", low_limit := 0, high_limit := 1 }

/-- C1 (corrected), counterexample: a DBL test (nominal 5, neither 1.0 nor
0.0) with no sibling "[MEAS]" field does return an absent measured value,
but the operator does NOT stay unset: the source assigns `'<>'` before the
sibling lookup fails, so the operator comes back as the range symbol. -/
theorem C1_counterexample :
    (Test.meas { _name := "Voltage", data := "FAIL", operator := none, spec := voltSpec } []).1
        = none ∧
      (Test.meas { _name := "Voltage", data := "FAIL", operator := none, spec := voltSpec } []).2
        = some "<>" := by
  refine ⟨by decide, by decide⟩

/-- C1 (corrected), amended claim: for a DBL test with no sibling
"name [MEAS]" field, a nominal of exactly 1.0 yields measured value 0 with
the equality operator, a nominal of exactly 0.0 yields 1 with equality, and
any other nominal yields an absent value with the operator left at the range
symbol `'<>'` assigned before the failed lookup (not unset). -/
theorem C1_meas_dbl_no_sibling (t : Test) (fs : Fields)
    (htype : t.spec.data_type = "DBL")
    (hsib : record_getitem_data fs (t.name ++ " [MEAS]") = none) :
    (t.spec.nominal = 1 → Test.meas t fs = (some (.int 0), some "==")) ∧
      (t.spec.nominal = 0 → Test.meas t fs = (some (.int 1), some "==")) ∧
      (t.spec.nominal ≠ 1 ∧ t.spec.nominal ≠ 0 →
        Test.meas t fs = (none, some "<>")) := by
  refine ⟨?_, ?_, ?_⟩
  · intro h1
    simp [Test.meas, htype, hsib, h1]
  · intro h0
    simp [Test.meas, htype, hsib, h0]
  · rintro ⟨h1, h0⟩
    simp [Test.meas, htype, hsib, h1, h0]

/-- Concrete DBL test with binary nominal 1 and no sibling field. -/
def binNomTest : Test :=
  { _name := "B", data := "FAIL", operator := none,
    spec := { data_type := "DBL", nominal := 1, units := "", low_limit := 0,
              high_limit := 2 } }

/-- Witness for C1_meas_dbl_no_sibling: a DBL test with nominal 1 and no
sibling field measures 0 with the equality operator. -/
theorem C1_witness :
    binNomTest.spec.data_type = "DBL" ∧
      record_getitem_data [] (Test.name binNomTest ++ " [MEAS]") = none ∧
      Test.meas binNomTest [] = (some (.int 0), some "==") :=
  ⟨rfl, rfl, (C1_meas_dbl_no_sibling binNomTest [] rfl rfl).1 rfl⟩

/-- C7 (confirmed): a test's status is true exactly when its raw field text
contains the substring "PASS" — a case-sensitive substring match, not an
equality, as the concrete examples "FOO PASS BAR" (true), "pass" (false)
and "XPASSY" (true) show. -/
theorem C7_status_substring :
    (∀ t : Test, t.status = true ↔ strContains t.data "PASS" = true) ∧
      Test.status { _name := "N", data := "FOO PASS BAR", operator := none, spec := boolSpec }
          = true ∧
      Test.status { _name := "N", data := "pass", operator := none, spec := boolSpec }
          = false ∧
      Test.status { _name := "N", data := "XPASSY", operator := none, spec := boolSpec }
          = true := by
  refine ⟨?_, by decide, by decide, by decide⟩
  intro t
  cases hb : strContains t.data "PASS" <;> simp [Test.status, hb]

/-- Witness for C7_status_substring at a concrete passing test. -/
theorem C7_witness :
    Test.status { _name := "N", data := "PASS", operator := none, spec := boolSpec } = true :=
  (C7_status_substring.1
    { _name := "N", data := "PASS", operator := none, spec := boolSpec }).mpr (by decide)

/-- C8 (confirmed): constructing a test whose canonical name is unregistered
in the spec lookup fails with a not-found error that propagates (it is the
value of the constructor, never swallowed); when the name is registered the
constructor succeeds with that spec. -/
theorem C8_init_propagates (lookup : SpecLookup) (name data : String) :
    (lookup (canonicalName name) = none →
      Test.init lookup name data = .error ("KeyError: " ++ canonicalName name)) ∧
      (∀ s, lookup (canonicalName name) = some s →
        Test.init lookup name data
          = .ok { _name := name, data := data, operator := none, spec := s }) := by
  constructor
  · intro h
    unfold Test.init
    rw [h]
  · intro s h
    unfold Test.init
    rw [h]

/-- Witness for C8_init_propagates: the name "Unknown" is not registered in
the concrete lookup, and construction returns the error. -/
theorem C8_witness :
    exLookup (canonicalName "Unknown") = none ∧
      Test.init exLookup "Unknown" "x" = .error ("KeyError: " ++ canonicalName "Unknown") :=
  ⟨by decide, (C8_init_propagates exLookup "Unknown" "x").1 (by decide)⟩

/-- C9 (confirmed): whenever the tests of a record resolve to a list, the
failed tests resolve to exactly those members whose raw data text contains
the substring "FAIL" — a raw-text check, independent of the structured
status logic. -/
theorem C9_failed_tests_filter (lookup : SpecLookup) (fs : Fields) (l : List Test)
    (h : tests lookup fs = .ok l) :
    ∃ fl, get_failed_tests lookup fs = .ok fl ∧
      ∀ t : Test, t ∈ fl ↔ (t ∈ l ∧ strContains t.data "FAIL" = true) := by
  refine ⟨l.filter (fun t => strContains t.data "FAIL"), ?_, ?_⟩
  · unfold get_failed_tests
    rw [h]
    rfl
  · intro t
    exact List.mem_filter

/-- Witness for C9_failed_tests_filter at the end-to-end scenario row. -/
theorem C9_witness :
    tests exLookup [("Voltage [MEAS]", "4.8"), ("Voltage", "FAIL")]
        = .ok [{ _name := "Voltage [MEAS]", data := "4.8", operator := none, spec := voltSpec },
               { _name := "Voltage", data := "FAIL", operator := none, spec := voltSpec }] ∧
      ∃ fl, get_failed_tests exLookup [("Voltage [MEAS]", "4.8"), ("Voltage", "FAIL")] = .ok fl ∧
        ∀ t : Test, t ∈ fl ↔
          (t ∈ [{ _name := "Voltage [MEAS]", data := "4.8", operator := none, spec := voltSpec },
                { _name := "Voltage", data := "FAIL", operator := none, spec := voltSpec }] ∧
            strContains t.data "FAIL" = true) :=
  ⟨rfl, C9_failed_tests_filter exLookup [("Voltage [MEAS]", "4.8"), ("Voltage", "FAIL")] _ rfl⟩

/-- C10 (confirmed): for a test whose spec data type is neither "DBL" nor
"BOOLEAN", reading `meas` is total and the measured value is absent (None);
for "STRING" the operator becomes equality, for "CORRELATION DBL" the range
symbol, and for any other type the operator is left exactly as it was. -/
theorem C10_meas_other_types (t : Test) (fs : Fields)
    (hd : t.spec.data_type ≠ "DBL") (hb : t.spec.data_type ≠ "BOOLEAN") :
    (Test.meas t fs).1 = none ∧
      (t.spec.data_type = "STRING" → Test.meas t fs = (none, some "==")) ∧
      (t.spec.data_type = "CORRELATION DBL" → Test.meas t fs = (none, some "<>")) ∧
      (t.spec.data_type ≠ "STRING" → t.spec.data_type ≠ "CORRELATION DBL" →
        Test.meas t fs = (none, t.operator)) := by
  refine ⟨?_, ?_, ?_, ?_⟩
  · by_cases hs : t.spec.data_type = "STRING"
    · simp [Test.meas, hd, hb, hs]
    · by_cases hc : t.spec.data_type = "CORRELATION DBL"
      · simp [Test.meas, hd, hb, hs, hc]
      · simp [Test.meas, hd, hb, hs, hc]
  · intro hs
    simp [Test.meas, hd, hb, hs]
  · intro hc
    have hs : t.spec.data_type ≠ "STRING" := by
      rw [hc]
      decide
    simp [Test.meas, hd, hb, hs, hc]
  · intro hs hc
    simp [Test.meas, hd, hb, hs, hc]

/-- Concrete STRING-type test for the measurement gap examples. -/
def strTypeTest : Test :=
  { _name := "S", data := "PASS", operator := none,
    spec := { data_type := "STRING", nominal := 1, units := "", low_limit := 0,
              high_limit := 1 } }

/-- Witness for C10_meas_other_types at a concrete STRING-type test. -/
theorem C10_witness :
    strTypeTest.spec.data_type ≠ "DBL" ∧
      strTypeTest.spec.data_type ≠ "BOOLEAN" ∧
      Test.meas strTypeTest [] = (none, some "==") :=
  ⟨by decide, by decide,
   (C10_meas_other_types strTypeTest [] (by decide) (by decide)).2.1 rfl⟩

end Tdr
